import Mathlib

/-!
Verification of the BlockGame voxel-mesher / PGA-camera core.

Shallow embedding of the repository's core (src/chunk.rs, src/math.rs,
src/game.rs).  `f32` scalars are embedded as exact rationals (ℚ); `u8`
coordinates as `Nat` with the explicit 255 cap where `checked_add` /
`checked_sub` matter.  The `f32` square root used by `cgmath`'s
`normalize` is kept abstract: camera-update definitions take it as an
explicit function parameter, so every statement quantifies over it.
-/

set_option maxRecDepth 40000

namespace BlockGame

/-- Type `cgmath::Vector3<f32>`, scalars as ℚ. -/
@[ext]
structure Vector3 where
  x : ℚ
  y : ℚ
  z : ℚ
deriving DecidableEq, Repr

/-- Componentwise vector addition. -/
def Vector3.add (a b : Vector3) : Vector3 :=
  ⟨a.x + b.x, a.y + b.y, a.z + b.z⟩

instance : Add Vector3 :=
  ⟨Vector3.add⟩

/-- Componentwise scalar multiple, `v * c` for `cgmath` vectors. -/
def smul (c : ℚ) (v : Vector3) : Vector3 :=
  ⟨c * v.x, c * v.y, c * v.z⟩

/-- Enum `Block` (src/chunk.rs lines 1-5): closed variant set. -/
inductive Block where
  | Air : Block
  | Stone : Block
deriving DecidableEq, Repr

/-- Test `matches!(block, Block::Air)`. -/
def Block.isAir : Block → Bool
  | .Air => true
  | .Stone => false

/-- One face record: local position in the grid and source block
(`(cgmath::Vector3<u8>, Block)`). -/
abbrev FaceEntry := (Nat × Nat × Nat) × Block

/-- Struct `Faces` (src/chunk.rs lines 7-15): the six direction-ordered face
lists, fields in source declaration order. -/
structure Faces where
  front : List FaceEntry
  back : List FaceEntry
  left : List FaceEntry
  right : List FaceEntry
  top : List FaceEntry
  bottom : List FaceEntry
deriving DecidableEq, Repr

/-- Value `Faces::default()`: all six lists empty. -/
def Faces.empty : Faces := ⟨[], [], [], [], [], []⟩

/-- Struct `Chunk` (src/chunk.rs lines 17-19).  The dense
`Box<[[[Block; 16]; 16]; 16]>` is embedded as a total function giving
the stored block of every (in-range) coordinate triple; all reads the
program performs are at coordinates below 16. -/
structure Chunk where
  blocks : Nat → Nat → Nat → Block

/-- Embedding of `u8::checked_add` on coordinates embedded as `Nat` (result must fit
in a `u8`, i.e. be at most 255). -/
def checked_add (a b : Nat) : Option Nat :=
  if a + b ≤ 255 then some (a + b) else none

/-- Embedding of `u8::checked_sub` on coordinates embedded as `Nat`. -/
def checked_sub (a b : Nat) : Option Nat :=
  if b ≤ a then some (a - b) else none

/-- Function `Chunk::get_block` (src/chunk.rs lines 22-28): the three
bounds-checked `.get` levels chained with `and_then`, then `.copied()`. -/
def Chunk.get_block (c : Chunk) (x y z : Nat) : Option Block :=
  (if x < 16 then some (c.blocks x) else none).bind fun bx =>
    (if y < 16 then some (bx y) else none).bind fun bxy =>
      if z < 16 then some (bxy z) else none

/-- Test `opt.map_or(true, |block| matches!(block, Block::Air))`: the
neighbor is out of range, or exists and is Air. -/
def airOrMissing (o : Option Block) : Bool :=
  o.elim true Block.isAir

/-- Append the entry when the neighbor test passes (one
`if ... { faces.d.push(...) }` of src/chunk.rs lines 38-73). -/
def pushIf (cond : Bool) (l : List FaceEntry) (e : FaceEntry) : List FaceEntry :=
  if cond then l ++ [e] else l

/-- Body of the innermost loop of `Chunk::generate_faces`
(src/chunk.rs lines 35-74).  The six sequential conditional pushes of
the source touch six distinct fields of `Faces`, so they are rendered
as one record with a conditional append per field, in the source's
neighbor-test form (`checked_add`/`checked_sub` then `get_block`, with
`map_or(true, is Air)`). -/
def Chunk.cellFaces (c : Chunk) (fac : Faces) (x y z : Nat) : Faces :=
  let block := c.blocks x y z
  if block.isAir then fac
  else
    { front := pushIf (airOrMissing ((checked_add x 1).bind fun nx => c.get_block nx y z))
        fac.front ((x, y, z), block)
      back := pushIf (airOrMissing ((checked_sub x 1).bind fun nx => c.get_block nx y z))
        fac.back ((x, y, z), block)
      top := pushIf (airOrMissing ((checked_add y 1).bind fun ny => c.get_block x ny z))
        fac.top ((x, y, z), block)
      bottom := pushIf (airOrMissing ((checked_sub y 1).bind fun ny => c.get_block x ny z))
        fac.bottom ((x, y, z), block)
      right := pushIf (airOrMissing ((checked_add z 1).bind fun nz => c.get_block x y nz))
        fac.right ((x, y, z), block)
      left := pushIf (airOrMissing ((checked_sub z 1).bind fun nz => c.get_block x y nz))
        fac.left ((x, y, z), block) }

/-- The two inner loops of `Chunk::generate_faces` for a fixed `x`:
iterate y then z over [0,16). -/
def Chunk.xSlice (c : Chunk) (fac : Faces) (x : Nat) : Faces :=
  (List.range 16).foldl
    (fun fac y =>
      (List.range 16).foldl (fun fac z => c.cellFaces fac x y z) fac)
    fac

/-- Function `Chunk::generate_faces` (src/chunk.rs lines 30-79): triple nested
loop over x, y, z in [0,16), outer x first, accumulating into
`Faces::default()`. -/
def Chunk.generate_faces (c : Chunk) : Faces :=
  (List.range 16).foldl (fun fac x => c.xSlice fac x) Faces.empty

/-- The grid that is all Air except cell (0,0,0) = Stone (the concrete
scenario of spec section 8). -/
def singleStoneChunk : Chunk :=
  ⟨fun x y z => if x = 0 ∧ y = 0 ∧ z = 0 then Block.Stone else Block.Air⟩

/-- A grid with Stone at (0,0,0) and (1,0,0) only: its front and back
face lists differ, which distinguishes the packer's direction order. -/
def twoStoneChunk : Chunk :=
  ⟨fun x y z => if (x = 0 ∨ x = 1) ∧ y = 0 ∧ z = 0 then Block.Stone else Block.Air⟩

/-- Struct `Point` (src/math.rs lines 3-9): a PGA trivector point; `e123` is
the homogeneous weight. -/
structure Point where
  e012 : ℚ
  e013 : ℚ
  e023 : ℚ
  e123 : ℚ
deriving DecidableEq, Repr

/-- Embedding of `impl From<Point> for cgmath::Vector3<f32>` (src/math.rs lines
117-125): the axis components are divided by the weight component
unconditionally — there is no zero-weight check and no error path in
the source.  In `f32` a zero weight gives non-finite components; under
ℚ's total-division convention it gives 0; in neither case is an error
value produced. -/
def Point.into_vector (p : Point) : Vector3 :=
  ⟨p.e023 / p.e123, -p.e013 / p.e123, p.e012 / p.e123⟩

/-- Modelled from the spec: the conversion as the spec describes it in
sections 4.3 and 7 — dividing by the weight but failing (a
DegenerateTransform condition, rendered as `none`) when the weight is
0.  No such checked conversion exists in the source; this definition
exists only to be compared with `Point.into_vector`. -/
def Point.into_vector_checked (p : Point) : Option Vector3 :=
  if p.e123 = 0 then none else some p.into_vector

/-- Struct `Motor` (src/math.rs lines 127-137): scalar, three
rotation-bivector, three translation-bivector and pseudoscalar
components. -/
@[ext]
structure Motor where
  s : ℚ
  e12 : ℚ
  e13 : ℚ
  e23 : ℚ
  e01 : ℚ
  e02 : ℚ
  e03 : ℚ
  e0123 : ℚ
deriving DecidableEq, Repr

/-- Constant `Motor::IDENTITY` (src/math.rs lines 140-149). -/
def Motor.IDENTITY : Motor := ⟨1, 0, 0, 0, 0, 0, 0, 0⟩

/-- Function `Motor::translation` (src/math.rs lines 151-162). -/
def Motor.translation (offset : Vector3) : Motor :=
  ⟨1, 0, 0, 0, offset.x * (-1/2), offset.y * (-1/2), offset.z * (-1/2), 0⟩

/-- Function `Motor::apply` (src/math.rs lines 206-250): the closed-form
geometric product `self * other`, component for component. -/
def Motor.apply (self other : Motor) : Motor :=
  let a := self.s
  let b := self.e12
  let c := self.e13
  let d := self.e23
  let e := self.e01
  let f := self.e02
  let g := self.e03
  let h := self.e0123
  let i := other.s
  let j := other.e12
  let k := other.e13
  let l := other.e23
  let m := other.e01
  let n := other.e02
  let o := other.e03
  let p := other.e0123
  { s := -b * j + -c * k + -d * l + a * i
    e12 := -c * l + a * j + b * i + d * k
    e13 := -d * j + a * k + b * l + c * i
    e23 := -b * k + a * l + c * j + d * i
    e01 := -d * p + -f * j + -g * k + -h * l + a * m + b * n + c * o + e * i
    e02 := -b * m + -g * l + a * n + c * p + d * o + e * j + f * i + h * k
    e03 := -b * p + -c * m + -d * n + -h * j + a * o + e * k + f * l + g * i
    e0123 := -c * n + -f * k + a * p + b * o + d * m + e * l + g * j + h * i }

/-- Function `Motor::pre_apply` (src/math.rs lines 252-254): reversed
composition order. -/
def Motor.pre_apply (self other : Motor) : Motor :=
  other.apply self

/-- Function `Motor::inverse` (src/math.rs lines 256-267): negates the six
bivector components, keeps scalar and pseudoscalar. -/
def Motor.inverse (self : Motor) : Motor :=
  ⟨self.s, -self.e12, -self.e13, -self.e23, -self.e01, -self.e02, -self.e03, self.e0123⟩

/-- The unit-norm condition on a motor (spec section 3: motors used as
transforms are assumed unit-norm).  A motor's norm is the product with
its reversion, `m * reverse(m)`, whose only possibly nonzero
components are the scalar `s² + e12² + e13² + e23²` and the
pseudoscalar `2*(s*e0123 - e12*e03 + e13*e02 - e23*e01)`; unit norm
means that product is exactly 1. -/
def Motor.unitNorm (m : Motor) : Prop :=
  m.s * m.s + m.e12 * m.e12 + m.e13 * m.e13 + m.e23 * m.e23 = 1 ∧
    m.s * m.e0123 - m.e12 * m.e03 + m.e13 * m.e02 - m.e23 * m.e01 = 0

instance (m : Motor) : Decidable m.unitNorm := by
  unfold Motor.unitNorm
  infer_instance

/-- Struct `FaceInfo` (src/game.rs lines 36-39): byte offset into the packed
buffer and face count for one direction. -/
structure FaceInfo where
  start_offset : Nat
  count : Nat
deriving DecidableEq, Repr

/-- One direction's serialized block in the packed buffer: the
direction's face normal, its 6-vertex quad template, the face entries
serialized for it, and the `FaceInfo` recorded for it. -/
structure PackedBlock where
  normal : Vector3
  vertices : List Vector3
  faces : List FaceEntry
  info : FaceInfo
deriving DecidableEq, Repr

/-- Per-block color table of the packer (src/game.rs lines 191-194):
the `Block::Air` arm is `unreachable!()`, modelled as `none`. -/
def colorOf : Block → Option Vector3
  | .Air => none
  | .Stone => some ⟨1/5, 1/5, 1/5⟩

/-- Byte size of one serialized `Faces` value holding `n` `Face`
records, per the `encase` storage (std430) layout of the structs at
src/game.rs lines 22-34: `vertices : [Vector3<f32>; 6]` has stride 16
per element (96 bytes), and each `Face` (three `Vector3<f32>` members
at offsets 0, 16, 32) has array stride 48, the runtime-sized array
starting at offset 96. -/
def facesByteSize (n : Nat) : Nat := 96 + 48 * n

/-- Padding step `buffer.resize(((buffer.len() + (256 - 1)) AND NOT(256 - 1)), 0)`
(src/game.rs line 208): round the buffer length up to the next
multiple of 256 (clearing the low 8 bits of `len + 255`). -/
def roundUp256 (n : Nat) : Nat := (n + 255) / 256 * 256

/-- The six quad templates of src/game.rs lines 212-285, 0.5 as 1/2. -/
def backVertices : List Vector3 :=
  [⟨-1/2, -1/2, -1/2⟩, ⟨-1/2, 1/2, -1/2⟩, ⟨-1/2, -1/2, 1/2⟩,
   ⟨-1/2, -1/2, 1/2⟩, ⟨-1/2, 1/2, -1/2⟩, ⟨-1/2, 1/2, 1/2⟩]

/-- Front quad template (src/game.rs lines 224-235). -/
def frontVertices : List Vector3 :=
  [⟨1/2, 1/2, -1/2⟩, ⟨1/2, -1/2, -1/2⟩, ⟨1/2, -1/2, 1/2⟩,
   ⟨1/2, 1/2, -1/2⟩, ⟨1/2, -1/2, 1/2⟩, ⟨1/2, 1/2, 1/2⟩]

/-- Top quad template (src/game.rs lines 237-248). -/
def topVertices : List Vector3 :=
  [⟨-1/2, 1/2, 1/2⟩, ⟨-1/2, 1/2, -1/2⟩, ⟨1/2, 1/2, -1/2⟩,
   ⟨-1/2, 1/2, 1/2⟩, ⟨1/2, 1/2, -1/2⟩, ⟨1/2, 1/2, 1/2⟩]

/-- Bottom quad template (src/game.rs lines 249-260). -/
def bottomVertices : List Vector3 :=
  [⟨-1/2, -1/2, -1/2⟩, ⟨-1/2, -1/2, 1/2⟩, ⟨1/2, -1/2, -1/2⟩,
   ⟨1/2, -1/2, -1/2⟩, ⟨-1/2, -1/2, 1/2⟩, ⟨1/2, -1/2, 1/2⟩]

/-- Left quad template (src/game.rs lines 262-273). -/
def leftVertices : List Vector3 :=
  [⟨-1/2, 1/2, -1/2⟩, ⟨-1/2, -1/2, -1/2⟩, ⟨1/2, -1/2, -1/2⟩,
   ⟨-1/2, 1/2, -1/2⟩, ⟨1/2, -1/2, -1/2⟩, ⟨1/2, 1/2, -1/2⟩]

/-- Right quad template (src/game.rs lines 274-285). -/
def rightVertices : List Vector3 :=
  [⟨-1/2, -1/2, 1/2⟩, ⟨-1/2, 1/2, 1/2⟩, ⟨1/2, -1/2, 1/2⟩,
   ⟨1/2, -1/2, 1/2⟩, ⟨-1/2, 1/2, 1/2⟩, ⟨1/2, 1/2, 1/2⟩]

/-- The face-buffer packer: the expansion of the six `face!` macro
invocations in `Game::new` (src/game.rs lines 179-285), in their
source order back, front, top, bottom, left, right.  Each step records
the current buffer length as the direction's `start_offset` together
with the direction's face count, serializes the direction's block at
that offset, and pads the buffer length up to the next multiple of
256.  The byte buffer itself is tracked by its length. -/
def packFaces (f : Faces) : List PackedBlock :=
  let s0 := 0
  let b0 : PackedBlock := ⟨⟨-1, 0, 0⟩, backVertices, f.back, ⟨s0, f.back.length⟩⟩
  let s1 := roundUp256 (s0 + facesByteSize f.back.length)
  let b1 : PackedBlock := ⟨⟨1, 0, 0⟩, frontVertices, f.front, ⟨s1, f.front.length⟩⟩
  let s2 := roundUp256 (s1 + facesByteSize f.front.length)
  let b2 : PackedBlock := ⟨⟨0, 1, 0⟩, topVertices, f.top, ⟨s2, f.top.length⟩⟩
  let s3 := roundUp256 (s2 + facesByteSize f.top.length)
  let b3 : PackedBlock := ⟨⟨0, -1, 0⟩, bottomVertices, f.bottom, ⟨s3, f.bottom.length⟩⟩
  let s4 := roundUp256 (s3 + facesByteSize f.bottom.length)
  let b4 : PackedBlock := ⟨⟨0, 0, -1⟩, leftVertices, f.left, ⟨s4, f.left.length⟩⟩
  let s5 := roundUp256 (s4 + facesByteSize f.left.length)
  let b5 : PackedBlock := ⟨⟨0, 0, 1⟩, rightVertices, f.right, ⟨s5, f.right.length⟩⟩
  [b0, b1, b2, b3, b4, b5]

/-- Modelled from the spec: the six face lists in the fixed direction
order of spec section 4.2 — front, back, top, bottom, right, left.
This is the order the spec asserts the packer serializes and records
in; it exists only to be compared with what `packFaces` produces. -/
def specOrderFaceLists (f : Faces) : List (List FaceEntry) :=
  [f.front, f.back, f.top, f.bottom, f.right, f.left]

/-- Struct `Camera` (src/game.rs lines 14-20): motor transform plus the
projection scalars. -/
structure CameraState where
  transform : Motor
  aspect : ℚ
  near_clip : ℚ
  far_clip : ℚ
deriving DecidableEq, Repr

/-- The pressed state of the six movement keys W, S, A, D, Q, E read
by `Game::update` from `pressed_keys` (src/game.rs lines 405-422). -/
structure MovementKeys where
  w : Bool
  s : Bool
  a : Bool
  d : Bool
  q : Bool
  e : Bool
deriving DecidableEq, Repr

/-- All six movement keys released. -/
def MovementKeys.none : MovementKeys := ⟨false, false, false, false, false, false⟩

/-- The accumulated movement vector of `Game::update` (src/game.rs
lines 403-422): starts at zero, W adds +1 to x, S subtracts 1 from x,
A subtracts 1 from z, D adds 1 to z, Q subtracts 1 from y, E adds 1 to
y. -/
def movementVector (k : MovementKeys) : Vector3 :=
  ⟨(if k.w then 1 else 0) + (if k.s then -1 else 0),
   (if k.q then -1 else 0) + (if k.e then 1 else 0),
   (if k.a then -1 else 0) + (if k.d then 1 else 0)⟩

/-- Embedding of the `cgmath` `magnitude2`: the squared Euclidean norm. -/
def magnitude2 (v : Vector3) : ℚ :=
  v.x * v.x + v.y * v.y + v.z * v.z

/-- Embedding of the `cgmath` `normalize`: `v * (1 / magnitude)`, where the magnitude
is the square root of `magnitude2`.  The `f32` square root is not a
rational function, so it is passed in as the abstract `sq`. -/
def normalize (sq : ℚ → ℚ) (v : Vector3) : Vector3 :=
  smul (1 / sq (magnitude2 v)) v

/-- Constant `CAMERA_SPEED` (src/game.rs line 424). -/
def CAMERA_SPEED : ℚ := 3

/-- Embedding of `Game::update` (src/game.rs lines 400-433), restricted to the
camera state it reads and writes.  `sq` is the abstract `f32` square
root used by `normalize`; `ts` is `dt.as_secs_f32()`.  When the
accumulated movement vector's squared magnitude exceeds 0.001 the
transform becomes
`transform.apply(Motor::translation(movement.normalize() * CAMERA_SPEED * ts))`;
otherwise the state is returned unchanged.  No branch touches
`aspect`, `near_clip` or `far_clip`. -/
def update (sq : ℚ → ℚ) (st : CameraState) (k : MovementKeys) (ts : ℚ) : CameraState :=
  let movement := movementVector k
  if 1/1000 < magnitude2 movement then
    { st with
        transform :=
          st.transform.apply
            (Motor.translation (smul ts (smul CAMERA_SPEED (normalize sq movement)))) }
  else
    st

/-- A camera state whose transform is a (unit) rotation-like motor
with rational entries, used to exhibit that motor composition order
matters. -/
def sampleRotCamera : CameraState :=
  ⟨⟨3/5, 4/5, 0, 0, 0, 0, 0, 0⟩, 16/9, 1/100, 100⟩

/-- Only the W key pressed. -/
def keyW : MovementKeys := ⟨true, false, false, false, false, false⟩

/-- Every entry of the list carries a non-Air block. -/
def noAirEntries (l : List FaceEntry) : Prop :=
  ∀ e ∈ l, e.2 ≠ Block.Air

/-- All six face lists carry only non-Air blocks. -/
def FacesNoAir (f : Faces) : Prop :=
  noAirEntries f.front ∧ noAirEntries f.back ∧ noAirEntries f.left ∧
    noAirEntries f.right ∧ noAirEntries f.top ∧ noAirEntries f.bottom

/-! Helper lemmas -/

/-- A fold whose step fixes every state is the identity. -/
theorem foldl_fixed {α σ : Type} (f : σ → α → σ) (l : List α)
    (h : ∀ s a, a ∈ l → f s a = s) : ∀ s, l.foldl f s = s := by
  induction l with
  | nil => intro s; rfl
  | cons a t ih =>
    intro s
    rw [List.foldl_cons, h s a (List.mem_cons_self a t)]
    exact ih (fun s b hb => h s b (List.mem_cons_of_mem a hb)) s

/-- A fold preserves any invariant its step preserves. -/
theorem foldl_preserve {α σ : Type} (P : σ → Prop) (f : σ → α → σ)
    (h : ∀ s a, P s → P (f s a)) : ∀ (l : List α) (s : σ), P s → P (l.foldl f s) := by
  intro l
  induction l with
  | nil => intro s hs; exact hs
  | cons a t ih => intro s hs; exact ih (f s a) (h s a hs)

/-- An Air cell emits no faces. -/
theorem cellFaces_air (c : Chunk) (x y z : Nat)
    (h : (c.blocks x y z).isAir = true) (fac : Faces) :
    c.cellFaces fac x y z = fac := by
  unfold Chunk.cellFaces
  simp [h]

/-- A slice whose cells are all Air leaves the accumulator unchanged. -/
theorem xSlice_air (c : Chunk) (x : Nat)
    (h : ∀ y < 16, ∀ z < 16, (c.blocks x y z).isAir = true) (fac : Faces) :
    c.xSlice fac x = fac := by
  unfold Chunk.xSlice
  refine foldl_fixed _ _ (fun s y hy => ?_) fac
  refine foldl_fixed _ _ (fun s z hz => ?_) s
  exact cellFaces_air c x y z (h y (List.mem_range.mp hy) z (List.mem_range.mp hz)) s

/-- Splitting one step off a left fold, equation-only (keeps concrete
fold evaluations out of definitional-equality checks). -/
theorem foldl_step {α σ : Type} (f : σ → α → σ) (s s2 r : σ) (a : α) (t : List α)
    (h1 : f s a = s2) (h2 : t.foldl f s2 = r) : (a :: t).foldl f s = r := by
  rw [List.foldl_cons, h1, h2]

/-- Slice x = 0 of the single-stone grid: the one stone cell emits a
face in all six lists. -/
theorem ss_slice0 :
    singleStoneChunk.xSlice Faces.empty 0 =
      ⟨[((0, 0, 0), Block.Stone)], [((0, 0, 0), Block.Stone)], [((0, 0, 0), Block.Stone)],
       [((0, 0, 0), Block.Stone)], [((0, 0, 0), Block.Stone)], [((0, 0, 0), Block.Stone)]⟩ := by
  decide

/-- The face lists of the single-stone grid, computed slice by slice:
slice x = 0 contains the stone, every other slice is all Air. -/
theorem singleStone_faces :
    singleStoneChunk.generate_faces =
      ⟨[((0, 0, 0), Block.Stone)], [((0, 0, 0), Block.Stone)], [((0, 0, 0), Block.Stone)],
       [((0, 0, 0), Block.Stone)], [((0, 0, 0), Block.Stone)], [((0, 0, 0), Block.Stone)]⟩ := by
  have h16 : List.range 16 = [0, 1, 2, 3, 4, 5, 6, 7, 8, 9, 10, 11, 12, 13, 14, 15] := rfl
  unfold Chunk.generate_faces
  rw [h16]
  refine foldl_step _ _ _ _ _ _ ss_slice0 ?_
  refine foldl_step _ _ _ _ _ _ (xSlice_air singleStoneChunk 1 (by decide) _) ?_
  refine foldl_step _ _ _ _ _ _ (xSlice_air singleStoneChunk 2 (by decide) _) ?_
  refine foldl_step _ _ _ _ _ _ (xSlice_air singleStoneChunk 3 (by decide) _) ?_
  refine foldl_step _ _ _ _ _ _ (xSlice_air singleStoneChunk 4 (by decide) _) ?_
  refine foldl_step _ _ _ _ _ _ (xSlice_air singleStoneChunk 5 (by decide) _) ?_
  refine foldl_step _ _ _ _ _ _ (xSlice_air singleStoneChunk 6 (by decide) _) ?_
  refine foldl_step _ _ _ _ _ _ (xSlice_air singleStoneChunk 7 (by decide) _) ?_
  refine foldl_step _ _ _ _ _ _ (xSlice_air singleStoneChunk 8 (by decide) _) ?_
  refine foldl_step _ _ _ _ _ _ (xSlice_air singleStoneChunk 9 (by decide) _) ?_
  refine foldl_step _ _ _ _ _ _ (xSlice_air singleStoneChunk 10 (by decide) _) ?_
  refine foldl_step _ _ _ _ _ _ (xSlice_air singleStoneChunk 11 (by decide) _) ?_
  refine foldl_step _ _ _ _ _ _ (xSlice_air singleStoneChunk 12 (by decide) _) ?_
  refine foldl_step _ _ _ _ _ _ (xSlice_air singleStoneChunk 13 (by decide) _) ?_
  refine foldl_step _ _ _ _ _ _ (xSlice_air singleStoneChunk 14 (by decide) _) ?_
  refine foldl_step _ _ _ _ _ _ (xSlice_air singleStoneChunk 15 (by decide) _) ?_
  exact List.foldl_nil

/-- Slice x = 0 of the two-stone grid: the stone at (0,0,0) has a
stone front neighbor at (1,0,0), so it emits no front face. -/
theorem ts_slice0 :
    twoStoneChunk.xSlice Faces.empty 0 =
      ⟨[], [((0, 0, 0), Block.Stone)], [((0, 0, 0), Block.Stone)],
       [((0, 0, 0), Block.Stone)], [((0, 0, 0), Block.Stone)], [((0, 0, 0), Block.Stone)]⟩ := by
  decide

/-- Slice x = 1 of the two-stone grid on top of slice 0's result: the
stone at (1,0,0) has a stone back neighbor, so it emits no back face. -/
theorem ts_slice1 :
    twoStoneChunk.xSlice
      ⟨[], [((0, 0, 0), Block.Stone)], [((0, 0, 0), Block.Stone)],
       [((0, 0, 0), Block.Stone)], [((0, 0, 0), Block.Stone)], [((0, 0, 0), Block.Stone)]⟩ 1 =
      ⟨[((1, 0, 0), Block.Stone)], [((0, 0, 0), Block.Stone)],
       [((0, 0, 0), Block.Stone), ((1, 0, 0), Block.Stone)],
       [((0, 0, 0), Block.Stone), ((1, 0, 0), Block.Stone)],
       [((0, 0, 0), Block.Stone), ((1, 0, 0), Block.Stone)],
       [((0, 0, 0), Block.Stone), ((1, 0, 0), Block.Stone)]⟩ := by
  decide

/-- The face lists of the two-stone grid (stones at (0,0,0) and
(1,0,0)): its front and back lists differ. -/
theorem twoStone_faces :
    twoStoneChunk.generate_faces =
      ⟨[((1, 0, 0), Block.Stone)], [((0, 0, 0), Block.Stone)],
       [((0, 0, 0), Block.Stone), ((1, 0, 0), Block.Stone)],
       [((0, 0, 0), Block.Stone), ((1, 0, 0), Block.Stone)],
       [((0, 0, 0), Block.Stone), ((1, 0, 0), Block.Stone)],
       [((0, 0, 0), Block.Stone), ((1, 0, 0), Block.Stone)]⟩ := by
  have h16 : List.range 16 = [0, 1, 2, 3, 4, 5, 6, 7, 8, 9, 10, 11, 12, 13, 14, 15] := rfl
  unfold Chunk.generate_faces
  rw [h16]
  refine foldl_step _ _ _ _ _ _ ts_slice0 ?_
  refine foldl_step _ _ _ _ _ _ ts_slice1 ?_
  refine foldl_step _ _ _ _ _ _ (xSlice_air twoStoneChunk 2 (by decide) _) ?_
  refine foldl_step _ _ _ _ _ _ (xSlice_air twoStoneChunk 3 (by decide) _) ?_
  refine foldl_step _ _ _ _ _ _ (xSlice_air twoStoneChunk 4 (by decide) _) ?_
  refine foldl_step _ _ _ _ _ _ (xSlice_air twoStoneChunk 5 (by decide) _) ?_
  refine foldl_step _ _ _ _ _ _ (xSlice_air twoStoneChunk 6 (by decide) _) ?_
  refine foldl_step _ _ _ _ _ _ (xSlice_air twoStoneChunk 7 (by decide) _) ?_
  refine foldl_step _ _ _ _ _ _ (xSlice_air twoStoneChunk 8 (by decide) _) ?_
  refine foldl_step _ _ _ _ _ _ (xSlice_air twoStoneChunk 9 (by decide) _) ?_
  refine foldl_step _ _ _ _ _ _ (xSlice_air twoStoneChunk 10 (by decide) _) ?_
  refine foldl_step _ _ _ _ _ _ (xSlice_air twoStoneChunk 11 (by decide) _) ?_
  refine foldl_step _ _ _ _ _ _ (xSlice_air twoStoneChunk 12 (by decide) _) ?_
  refine foldl_step _ _ _ _ _ _ (xSlice_air twoStoneChunk 13 (by decide) _) ?_
  refine foldl_step _ _ _ _ _ _ (xSlice_air twoStoneChunk 14 (by decide) _) ?_
  refine foldl_step _ _ _ _ _ _ (xSlice_air twoStoneChunk 15 (by decide) _) ?_
  exact List.foldl_nil

/-! Face-culler claims -/

/-- Claim C4: on the grid that is all Air except (0,0,0) = Stone,
`generate_faces` emits exactly one face in each of the six direction
lists, 6 faces in total. -/
theorem C4_single_stone_six_faces :
    singleStoneChunk.generate_faces.front = [((0, 0, 0), Block.Stone)] ∧
      singleStoneChunk.generate_faces.back = [((0, 0, 0), Block.Stone)] ∧
      singleStoneChunk.generate_faces.top = [((0, 0, 0), Block.Stone)] ∧
      singleStoneChunk.generate_faces.bottom = [((0, 0, 0), Block.Stone)] ∧
      singleStoneChunk.generate_faces.right = [((0, 0, 0), Block.Stone)] ∧
      singleStoneChunk.generate_faces.left = [((0, 0, 0), Block.Stone)] ∧
      singleStoneChunk.generate_faces.front.length +
          singleStoneChunk.generate_faces.back.length +
          singleStoneChunk.generate_faces.top.length +
          singleStoneChunk.generate_faces.bottom.length +
          singleStoneChunk.generate_faces.right.length +
          singleStoneChunk.generate_faces.left.length = 6 := by
  rw [singleStone_faces]
  exact ⟨rfl, rfl, rfl, rfl, rfl, rfl, rfl⟩

/-- Claim C5: `get_block` returns `none` exactly when a coordinate is
out of [0,16), and the stored block otherwise (and, being a total Lean
function, it cannot panic). -/
theorem C5_get_block_bounds :
    ∀ (c : Chunk) (x y z : Nat),
      c.get_block x y z =
        if x < 16 ∧ y < 16 ∧ z < 16 then some (c.blocks x y z) else none := by
  intro c x y z
  unfold Chunk.get_block
  by_cases hx : x < 16 <;> by_cases hy : y < 16 <;> by_cases hz : z < 16 <;>
    simp [hx, hy, hz]

/-- A `pushIf` step preserves the no-Air property when the pushed
entry's block is not Air. -/
theorem noAirEntries_pushIf {l : List FaceEntry} {e : FaceEntry}
    (h : noAirEntries l) (he : e.2 ≠ Block.Air) (cond : Bool) :
    noAirEntries (pushIf cond l e) := by
  unfold pushIf
  split
  · intro a ha
    rcases List.mem_append.mp ha with h1 | h1
    · exact h a h1
    · rw [List.mem_singleton.mp h1]
      exact he
  · exact h

/-- A block whose `isAir` test is false is not Air. -/
theorem ne_air_of_isAir_false {b : Block} (h : b.isAir = false) : b ≠ Block.Air := by
  cases b
  · simp [Block.isAir] at h
  · intro hc
    cases hc

/-- One cell step preserves the no-Air property of the accumulator:
entries are only pushed for a block that passed the non-Air guard. -/
theorem cellFaces_noAir (c : Chunk) (fac : Faces) (x y z : Nat)
    (h : FacesNoAir fac) : FacesNoAir (c.cellFaces fac x y z) := by
  unfold Chunk.cellFaces
  obtain ⟨h1, h2, h3, h4, h5, h6⟩ := h
  by_cases hb : (c.blocks x y z).isAir
  · simp only [hb, if_true]
    exact ⟨h1, h2, h3, h4, h5, h6⟩
  · rw [Bool.not_eq_true] at hb
    have hne : c.blocks x y z ≠ Block.Air := ne_air_of_isAir_false hb
    simp only [hb, Bool.false_eq_true, if_false]
    exact ⟨noAirEntries_pushIf h1 hne _, noAirEntries_pushIf h2 hne _,
      noAirEntries_pushIf h3 hne _, noAirEntries_pushIf h4 hne _,
      noAirEntries_pushIf h5 hne _, noAirEntries_pushIf h6 hne _⟩

/-- Every face list produced by `generate_faces` carries only non-Air
blocks (fold invariant over all 4096 cells). -/
theorem generate_faces_noAir (c : Chunk) : FacesNoAir c.generate_faces := by
  unfold Chunk.generate_faces
  refine foldl_preserve FacesNoAir _ (fun s x hs => ?_) _ Faces.empty ?_
  · unfold Chunk.xSlice
    refine foldl_preserve FacesNoAir _ (fun s y hs => ?_) _ s hs
    refine foldl_preserve FacesNoAir _ (fun s z hs => ?_) _ s hs
    exact cellFaces_noAir c s x y z hs
  · refine ⟨?_, ?_, ?_, ?_, ?_, ?_⟩ <;> intro e he <;> cases he

/-- Claim C10: every (position, block) pair in any of the six lists
returned by `generate_faces` has a non-Air block, so the packer's
per-face color lookup (whose Air arm is `unreachable!()`, modelled as
`none` in `colorOf`) always succeeds on such input. -/
theorem C10_faces_never_air :
    ∀ (c : Chunk) (e : FaceEntry),
      (e ∈ c.generate_faces.front ∨ e ∈ c.generate_faces.back ∨
          e ∈ c.generate_faces.top ∨ e ∈ c.generate_faces.bottom ∨
          e ∈ c.generate_faces.right ∨ e ∈ c.generate_faces.left) →
      e.2 ≠ Block.Air ∧ (colorOf e.2).isSome = true := by
  intro c e hmem
  obtain ⟨h1, h2, h3, h4, h5, h6⟩ := generate_faces_noAir c
  have hne : e.2 ≠ Block.Air := by
    rcases hmem with h | h | h | h | h | h
    · exact h1 e h
    · exact h2 e h
    · exact h5 e h
    · exact h6 e h
    · exact h4 e h
    · exact h3 e h
  refine ⟨hne, ?_⟩
  cases he : e.2
  · exact absurd he hne
  · rfl

/-- Witness for C10 at the single-stone grid: the entry of its front
list is the Stone at the origin, it is not Air and has a color. -/
theorem C10_witness :
    (((0, 0, 0), Block.Stone) : FaceEntry).2 ≠ Block.Air ∧
      (colorOf (((0, 0, 0), Block.Stone) : FaceEntry).2).isSome = true :=
  C10_faces_never_air singleStoneChunk ((0, 0, 0), Block.Stone)
    (Or.inl (by rw [singleStone_faces]; exact List.mem_singleton.mpr rfl))

/-! Point-conversion claim -/

/-- Counterexample for claim C1: at the weight-0 point (1, 2, 3, 0)
the source conversion `Point.into_vector` still produces a vector — it
divides unconditionally (the exact-arithmetic embedding yields the
zero vector; `f32` yields non-finite components) — whereas the spec's
DegenerateTransform-checked conversion fails.  The source conversion
is a total function with no error result, so the claim that it fails
with a defined error condition at weight 0 is false. -/
theorem C1_counterexample :
    Point.into_vector_checked ⟨1, 2, 3, 0⟩ = none ∧
      some (Point.into_vector ⟨1, 2, 3, 0⟩) ≠ Point.into_vector_checked ⟨1, 2, 3, 0⟩ ∧
      Point.into_vector ⟨1, 2, 3, 0⟩ = ⟨0, 0, 0⟩ := by
  refine ⟨rfl, ?_, ?_⟩
  · intro h
    simp [Point.into_vector_checked] at h
  · ext <;> simp [Point.into_vector]

/-- Claim C1 (amended): the source conversion never fails; it agrees
with the spec's checked conversion exactly on the points of nonzero
weight, and at weight 0 the checked conversion fails while the source
conversion still returns a vector (the zero vector under exact
arithmetic). -/
theorem C1_division_by_weight :
    ∀ p : Point,
      (p.e123 ≠ 0 → Point.into_vector_checked p = some p.into_vector) ∧
        (p.e123 = 0 → Point.into_vector_checked p = none ∧ p.into_vector = ⟨0, 0, 0⟩) := by
  intro p
  constructor
  · intro h
    simp [Point.into_vector_checked, h]
  · intro h
    refine ⟨by simp [Point.into_vector_checked, h], ?_⟩
    unfold Point.into_vector
    rw [h]
    simp

/-- Witness for C1 at the origin point (weight 1): the checked
conversion succeeds and agrees with the source conversion. -/
theorem C1_witness :
    Point.into_vector_checked ⟨0, 0, 0, 1⟩ = some (Point.into_vector ⟨0, 0, 0, 1⟩) :=
  (C1_division_by_weight ⟨0, 0, 0, 1⟩).1 (by norm_num)

/-! Packer direction-order claim -/

/-- Counterexample for claim C2: the packer does not serialize in the
spec's direction order front, back, top, bottom, right, left.  On the
two-stone grid the first packed block holds the back list
[((0,0,0), Stone)], not the front list [((1,0,0), Stone)]. -/
theorem C2_counterexample :
    ¬ (∀ c : Chunk,
        (packFaces c.generate_faces).map PackedBlock.faces =
          specOrderFaceLists c.generate_faces) := by
  intro h
  have h2 := h twoStoneChunk
  rw [twoStone_faces] at h2
  exact absurd h2 (by decide)

/-- Claim C2 (amended): for every set of face lists the packer
serializes the six lists, and records their (start_offset, face_count)
pairs, in the source order back, front, top, bottom, left, right, with
the per-direction normals of the source table. -/
theorem C2_pack_direction_order :
    ∀ f : Faces,
      (packFaces f).map PackedBlock.faces =
          [f.back, f.front, f.top, f.bottom, f.left, f.right] ∧
        (packFaces f).map PackedBlock.normal =
          [⟨-1, 0, 0⟩, ⟨1, 0, 0⟩, ⟨0, 1, 0⟩, ⟨0, -1, 0⟩, ⟨0, 0, -1⟩, ⟨0, 0, 1⟩] ∧
        (packFaces f).map (fun pb => pb.info.count) =
          [f.back.length, f.front.length, f.top.length,
            f.bottom.length, f.left.length, f.right.length] := by
  intro f
  exact ⟨rfl, rfl, rfl⟩

/-! Motor-algebra claims -/

/-- Claim C3: a unit-norm motor composed with its own inverse (its
reversion) via `apply` gives exactly `Motor::IDENTITY`. -/
theorem C3_unit_motor_inverse_cancels :
    ∀ m : Motor, m.unitNorm → m.apply m.inverse = Motor.IDENTITY := by
  intro m hm
  obtain ⟨h1, h2⟩ := hm
  ext <;> simp only [Motor.apply, Motor.inverse, Motor.IDENTITY]
  · linear_combination h1
  · ring
  · ring
  · ring
  · ring
  · ring
  · ring
  · linear_combination 2 * h2

/-- Witness for C3: the translation by (2,0,0) is unit-norm and
composing it with its inverse gives the identity motor. -/
theorem C3_witness :
    (Motor.translation ⟨2, 0, 0⟩).unitNorm ∧
      (Motor.translation ⟨2, 0, 0⟩).apply (Motor.translation ⟨2, 0, 0⟩).inverse =
        Motor.IDENTITY :=
  ⟨by constructor <;> norm_num [Motor.translation],
    C3_unit_motor_inverse_cancels (Motor.translation ⟨2, 0, 0⟩)
      (by constructor <;> norm_num [Motor.translation])⟩

/-- Claim C9: translation motors compose additively under `apply`. -/
theorem C9_translations_compose_additively :
    ∀ v w : Vector3,
      (Motor.translation v).apply (Motor.translation w) = Motor.translation (v + w) := by
  intro v w
  have hvw : v + w = ⟨v.x + w.x, v.y + w.y, v.z + w.z⟩ := rfl
  rw [hvw]
  ext <;> simp only [Motor.apply, Motor.translation] <;> ring

/-! Packer alignment claim -/

/-- Rounding up to a multiple of 256 yields a multiple of 256. -/
theorem roundUp256_mod (n : Nat) : roundUp256 n % 256 = 0 := by
  unfold roundUp256
  omega

/-- Appending a (nonempty, at least 96-byte) serialized block and
padding strictly advances the buffer length. -/
theorem lt_roundUp256 (s n : Nat) : s < roundUp256 (s + facesByteSize n) := by
  unfold roundUp256 facesByteSize
  omega

/-- Claim C6: every recorded start_offset is a multiple of 256, and
the six offsets are strictly increasing in the order produced. -/
theorem C6_offsets_aligned_and_increasing :
    ∀ c : Chunk,
      (∀ fi ∈ (packFaces c.generate_faces).map PackedBlock.info,
          fi.start_offset % 256 = 0) ∧
        ((packFaces c.generate_faces).map
            (fun pb => pb.info.start_offset)).Chain' (· < ·) := by
  intro c
  constructor
  · intro fi hfi
    simp only [packFaces, List.map_cons, List.map_nil, List.mem_cons,
      List.not_mem_nil, or_false] at hfi
    rcases hfi with h | h | h | h | h | h <;> subst h <;>
      first
        | rfl
        | exact roundUp256_mod _
  · simp only [packFaces, List.map_cons, List.map_nil, List.chain'_cons,
      List.chain'_singleton, and_true]
    exact ⟨lt_roundUp256 _ _, lt_roundUp256 _ _, lt_roundUp256 _ _,
      lt_roundUp256 _ _, lt_roundUp256 _ _⟩

/-- Witness for C6 at the single-stone grid: the second recorded
offset is 256, a multiple of 256. -/
theorem C6_witness :
    FaceInfo.start_offset ⟨256, 1⟩ % 256 = 0 :=
  (C6_offsets_aligned_and_increasing singleStoneChunk).1 ⟨256, 1⟩
    (by rw [singleStone_faces]; decide)

/-! Camera-update claims -/

/-- In the moving branch (squared magnitude above the 0.001 epsilon),
`update` right-composes the translation motor onto the transform. -/
theorem update_moving (sq : ℚ → ℚ) (st : CameraState) (k : MovementKeys) (ts : ℚ)
    (h : 1/1000 < magnitude2 (movementVector k)) :
    update sq st k ts =
      { st with
          transform :=
            st.transform.apply
              (Motor.translation
                (smul ts (smul CAMERA_SPEED (normalize sq (movementVector k))))) } := by
  unfold update
  rw [if_pos h]

/-- Below (or at) the epsilon, `update` returns the state unchanged. -/
theorem update_still (sq : ℚ → ℚ) (st : CameraState) (k : MovementKeys) (ts : ℚ)
    (h : ¬ 1/1000 < magnitude2 (movementVector k)) :
    update sq st k ts = st := by
  unfold update
  rw [if_neg h]

/-- Claim C7: with all movement flags false — more generally whenever
the accumulated movement vector's squared magnitude is below the
epsilon — `update` leaves the transform unchanged, and it never
changes the aspect ratio or the clip scalars, whatever the flags. -/
theorem C7_update_preserves_camera :
    ∀ (sq : ℚ → ℚ) (st : CameraState) (k : MovementKeys) (ts : ℚ),
      (k = MovementKeys.none → (update sq st k ts).transform = st.transform) ∧
        (magnitude2 (movementVector k) < 1/1000 →
          (update sq st k ts).transform = st.transform) ∧
        (update sq st k ts).aspect = st.aspect ∧
        (update sq st k ts).near_clip = st.near_clip ∧
        (update sq st k ts).far_clip = st.far_clip := by
  intro sq st k ts
  by_cases h : 1/1000 < magnitude2 (movementVector k)
  · rw [update_moving sq st k ts h]
    refine ⟨?_, ?_, rfl, rfl, rfl⟩
    · intro hk
      subst hk
      norm_num [movementVector, magnitude2, MovementKeys.none] at h
    · intro h2
      exact absurd h (not_lt.mpr h2.le)
  · rw [update_still sq st k ts h]
    exact ⟨fun _ => rfl, fun _ => rfl, rfl, rfl, rfl⟩

/-- Witness for C7: a concrete update with no key pressed leaves the
concrete camera state's transform and aspect unchanged. -/
theorem C7_witness :
    (update (fun q => q) sampleRotCamera MovementKeys.none 5).transform =
        sampleRotCamera.transform ∧
      (update (fun q => q) sampleRotCamera MovementKeys.none 5).aspect =
        sampleRotCamera.aspect :=
  ⟨(C7_update_preserves_camera (fun q => q) sampleRotCamera MovementKeys.none 5).1 rfl,
    (C7_update_preserves_camera (fun q => q) sampleRotCamera MovementKeys.none 5).2.2.1⟩

/-- Claim C8: above the epsilon, the new transform is exactly
`transform.apply(Motor::translation(normalize(v) * CAMERA_SPEED * ts))`
— the translation motor right-composed onto the current transform —
and the operand order matters: at a concrete rotated camera the
reversed order gives a different motor. -/
theorem C8_camera_relative_movement :
    (∀ (sq : ℚ → ℚ) (st : CameraState) (k : MovementKeys) (ts : ℚ),
        1/1000 < magnitude2 (movementVector k) →
          (update sq st k ts).transform =
            st.transform.apply
              (Motor.translation
                (smul (CAMERA_SPEED * ts) (normalize sq (movementVector k))))) ∧
      (update (fun _ => 1) sampleRotCamera keyW 1).transform ≠
        (Motor.translation
            (smul (CAMERA_SPEED * 1) (normalize (fun _ => 1) (movementVector keyW)))).apply
          sampleRotCamera.transform := by
  constructor
  · intro sq st k ts h
    rw [update_moving sq st k ts h]
    have hs : smul ts (smul CAMERA_SPEED (normalize sq (movementVector k))) =
        smul (CAMERA_SPEED * ts) (normalize sq (movementVector k)) := by
      unfold smul
      ext <;> ring
    rw [hs]
  · intro h
    have hcond : (1 : ℚ)/1000 < magnitude2 (movementVector keyW) := by
      norm_num [movementVector, magnitude2, keyW]
    rw [update_moving (fun _ => 1) sampleRotCamera keyW 1 hcond] at h
    have h2 := congrArg Motor.e02 h
    norm_num [movementVector, magnitude2, keyW, sampleRotCamera, normalize, smul,
      CAMERA_SPEED, Motor.translation, Motor.apply] at h2

/-- Witness for C8: a concrete moving update (W pressed, unit delta
time, identity square root) equals the right-composition form. -/
theorem C8_witness :
    (update (fun _ => 1) sampleRotCamera keyW 1).transform =
      sampleRotCamera.transform.apply
        (Motor.translation
          (smul (CAMERA_SPEED * 1) (normalize (fun _ => 1) (movementVector keyW)))) :=
  C8_camera_relative_movement.1 (fun _ => 1) sampleRotCamera keyW 1
    (by norm_num [movementVector, magnitude2, keyW])

end BlockGame
